import Mathlib

/-
Verification development for the HeyGen flu-vaccination training simulation
(src/app.py).  The Streamlit application is embedded shallowly: the per-run
mutable `st.session_state` becomes an explicit `AppState` record, each button
handler becomes a state-transition function, and every remote HTTP call is
resolved by an explicit oracle value describing the response of the HeyGen
service.  Side effects that matter to the specification (which remote
endpoints were called, which error messages were surfaced via `st.error`) are
collected in an `Effects` value returned alongside the new state.
-/

set_option linter.unusedVariables false

namespace VaxSim

/-- The three simulation phases (`class SimulationPhase(Enum)` in app.py). -/
inductive SimulationPhase where
  | pre_briefing
  | main_simulation
  | debriefing
deriving DecidableEq, Repr

/-- The two avatar keys used by the application: `"noa"` and `"sam"`.
`st.session_state.current_avatar` only ever holds one of these two strings. -/
inductive AvatarKey where
  | noa
  | sam
deriving DecidableEq, Repr

/-- One entry of the `AVATARS` configuration dictionary. -/
structure AvatarInfo where
  name : String
  avatar_id : String
  knowledge_base_id : String
  role : String
  description : String
deriving DecidableEq, Repr

/-- The `AVATARS` configuration dictionary of app.py. -/
def AVATARS : AvatarKey → AvatarInfo
  | .noa =>
    { name := "Noa Sandoval"
      avatar_id := "Kristin_public_3_20240108"
      knowledge_base_id := "96b0ed06f07640459bcac16439103895"
      role := "Virtual Simulation Instructor"
      description := "Handles pre-briefing and debriefing" }
  | .sam =>
    { name := "Sam Richards"
      avatar_id := "Tyler_public_2_20230808"
      knowledge_base_id := "15a0063f43ed4d1c92f5a269dc0b8f9b"
      role := "Simulation Character"
      description := "Patient in the Flu Vaccination Program simulation" }

/-- A scripted dialogue line: `{"text": ..., "emotion": ...}`. -/
structure Script where
  text : String
  emotion : String
deriving DecidableEq, Repr

instance : Inhabited Script := ⟨{ text := "", emotion := "" }⟩

/-- `get_phase_scripts(phase)`: the fixed scripts of each phase. -/
def get_phase_scripts : SimulationPhase → List Script
  | .pre_briefing =>
    [ { text := "Hello! I\x27m Noa Sandoval, your virtual simulation instructor. Welcome to the Flu Vaccination Program simulation."
        emotion := "friendly" },
      { text := "In this simulation, you\x27ll be interacting with Sam Richards, a patient who has concerns about getting the flu vaccine. Your goal is to address their concerns professionally and provide accurate information."
        emotion := "professional" },
      { text := "Remember to listen actively, show empathy, and use evidence-based information. Are you ready to begin the simulation?"
        emotion := "encouraging" } ]
  | .main_simulation =>
    [ { text := "Hi there. I\x27m Sam Richards. I received a letter about getting a flu shot, but I\x27m not sure if I really need it. I\x27ve heard some concerning things about vaccines."
        emotion := "concerned" } ]
  | .debriefing =>
    [ { text := "Welcome back! I\x27m Noa again. Let\x27s debrief your simulation experience with Sam Richards."
        emotion := "friendly" },
      { text := "You did a great job addressing Sam\x27s concerns about the flu vaccine. Let\x27s review what went well and areas for improvement."
        emotion := "encouraging" },
      { text := "Key takeaways: Always validate patient concerns, provide evidence-based information, and maintain a professional yet empathetic approach. Do you have any questions about the simulation?"
        emotion := "professional" } ]

/-- Python truthiness of an optional string (`None` and `""` are falsy).
Used for `if not token`, `if st.session_state.session_id`, etc. -/
def truthy : Option String → Bool
  | none => false
  | some t => t != ""

/-- The remote HeyGen endpoints the client can call. -/
inductive RemoteCall where
  | create_token
  | new_session
  | task
  | stop
deriving DecidableEq, Repr

/-- Observable side effects of one handler: the remote endpoints actually
called (in order) and the error messages surfaced through `st.error`. -/
structure Effects where
  calls : List RemoteCall
  errors : List String
deriving DecidableEq, Repr

def Effects.empty : Effects := { calls := [], errors := [] }

def Effects.append (a b : Effects) : Effects :=
  { calls := a.calls ++ b.calls, errors := a.errors ++ b.errors }

instance : Append Effects := ⟨Effects.append⟩

/-- Oracle outcome of the `streaming.create_token` POST: a 200 response
carrying `data.token` (possibly absent), a non-200 status with its error
detail, or a raised exception. -/
inductive TokenCallResult where
  | success (token : Option String)
  | httpError (code : Nat) (detail : String)
  | exn (msg : String)
deriving DecidableEq, Repr

/-- Oracle outcome of a plain status-checked POST (`streaming.task`,
`streaming.stop`): an HTTP status code or a raised exception. -/
inductive PostCallResult where
  | status (code : Nat)
  | exn (msg : String)
deriving DecidableEq, Repr

/-- Fields of the `data` object returned by a successful `streaming.new`
POST; each may be missing from the response. -/
structure NewSessionFields where
  session_id : Option String
  access_token : Option String
  url : Option String
deriving DecidableEq, Repr

/-- Oracle outcome of the `streaming.new` POST. -/
inductive NewCallResult where
  | success (data : NewSessionFields)
  | httpError (code : Nat) (detail : String)
  | exn (msg : String)
deriving DecidableEq, Repr

/-- The session dictionary stored by `create_streaming_session` on success:
the `data` fields of the `streaming.new` response plus the token. -/
structure SessionData where
  session_id : Option String
  access_token : Option String
  url : Option String
  token : String
deriving DecidableEq, Repr

/-- Error messages surfaced by `create_streaming_token` on a non-200 status:
the base message, plus the dedicated 401/403 hints. -/
def tokenErrorMsgs (code : Nat) (detail : String) : List String :=
  ("Failed to create token: Status " ++ toString code ++ " - " ++ detail) ::
    (if code = 401 then
      ["⚠️ Invalid API key. Please check your HeyGen API key."]
    else if code = 403 then
      ["⚠️ API key doesn\x27t have permission for streaming avatars."]
    else [])

/-- `create_streaming_token(api_key)`: returns `data.token` on a 200
response (which may itself be `None`), otherwise surfaces errors and
returns `None`. -/
def create_streaming_token (api_key : String) :
    TokenCallResult → Option String × Effects
  | .success token => (token, { calls := [.create_token], errors := [] })
  | .httpError code detail =>
      (none, { calls := [.create_token], errors := tokenErrorMsgs code detail })
  | .exn msg =>
      (none, { calls := [.create_token], errors := ["Error creating token: " ++ msg] })

/-- Oracle for `create_streaming_session`: the token call outcome and, if the
token call yields a usable token, the `streaming.new` outcome. -/
structure SessionOracle where
  tokenResult : TokenCallResult
  newResult : NewCallResult
deriving DecidableEq, Repr

/-- Oracle for `speak_to_avatar`: token call outcome plus `streaming.task`
outcome. -/
structure SpeakOracle where
  tokenResult : TokenCallResult
  taskResult : PostCallResult
deriving DecidableEq, Repr

/-- Oracle for `stop_avatar_session`: token call outcome plus
`streaming.stop` outcome. -/
structure StopOracle where
  tokenResult : TokenCallResult
  stopResult : PostCallResult
deriving DecidableEq, Repr

/-- `create_streaming_session(api_key, avatar_id, knowledge_base_id)`:
first exchanges the API key for a token (`if not token: return None`), then
POSTs `streaming.new`; on a 200 response returns the `data` dict extended
with the token, otherwise surfaces an error and returns `None`. -/
def create_streaming_session (api_key avatar_id : String)
    (knowledge_base_id : Option String) (o : SessionOracle) :
    Option SessionData × Effects :=
  let tok := create_streaming_token api_key o.tokenResult
  if truthy tok.1 then
    match o.newResult with
    | .success data =>
        (some { session_id := data.session_id
                access_token := data.access_token
                url := data.url
                token := tok.1.getD "" },
         tok.2 ++ { calls := [.new_session], errors := [] })
    | .httpError code detail =>
        (none,
         tok.2 ++ { calls := [.new_session],
                    errors := ["Failed to create session: Status " ++ toString code ++ " - " ++ detail] })
    | .exn msg =>
        (none,
         tok.2 ++ { calls := [.new_session],
                    errors := ["Error creating session: " ++ msg] })
  else (none, tok.2)

/-- `speak_to_avatar(api_key, session_id, text, emotion)`: fetches a fresh
token, POSTs `streaming.task` with `task_type=talk, task_mode=sync`, and
returns `status_code == 200`; a non-200 status returns `False` silently,
an exception surfaces an error. -/
def speak_to_avatar (api_key : String) (session_id : Option String)
    (text : String) (o : SpeakOracle) (emotion : String := "neutral") :
    Bool × Effects :=
  let tok := create_streaming_token api_key o.tokenResult
  if truthy tok.1 then
    match o.taskResult with
    | .status code => (code == 200, tok.2 ++ { calls := [.task], errors := [] })
    | .exn msg =>
        (false,
         tok.2 ++ { calls := [.task], errors := ["Error speaking: " ++ msg] })
  else (false, tok.2)

/-- `stop_avatar_session(api_key, session_id)`: fetches a fresh token, POSTs
`streaming.stop`, returns `status_code == 200`. -/
def stop_avatar_session (api_key : String) (session_id : Option String)
    (o : StopOracle) : Bool × Effects :=
  let tok := create_streaming_token api_key o.tokenResult
  if truthy tok.1 then
    match o.stopResult with
    | .status code => (code == 200, tok.2 ++ { calls := [.stop], errors := [] })
    | .exn msg =>
        (false,
         tok.2 ++ { calls := [.stop], errors := ["Error stopping session: " ++ msg] })
  else (false, tok.2)

/-- One conversation-history entry.  Avatar entries carry an emotion and an
avatar key; user entries carry neither. -/
structure ConvEntry where
  role : String
  content : String
  emotion : Option String
  timestamp : String
  avatar : Option AvatarKey
deriving DecidableEq, Repr

/-- Per-phase completion flags (`st.session_state.phase_completed`, a dict
keyed by the three phase value strings). -/
structure PhaseCompleted where
  pre_briefing : Bool
  main_simulation : Bool
  debriefing : Bool
deriving DecidableEq, Repr

/-- The application state held in `st.session_state`.  `pending_script` is
`none` when the `pending_script` key is absent; `api_key` is `none` when no
`api_key` key has been stored. -/
structure AppState where
  session_id : Option String
  session_data : Option SessionData
  conversation_history : List ConvEntry
  simulation_phase : SimulationPhase
  simulation_started : Bool
  current_avatar : AvatarKey
  phase_completed : PhaseCompleted
  pending_script : Option Script
  api_key : Option String
deriving DecidableEq, Repr

/-- The state produced by the session-state initialization block at the top
of app.py. -/
def initialState : AppState :=
  { session_id := none
    session_data := none
    conversation_history := []
    simulation_phase := .pre_briefing
    simulation_started := false
    current_avatar := .noa
    phase_completed := { pre_briefing := false, main_simulation := false, debriefing := false }
    pending_script := none
    api_key := none }

/-- `set_phase_completed(phase, completed)`. -/
def set_phase_completed (phase : SimulationPhase) (s : AppState)
    (completed : Bool := true) : AppState :=
  match phase with
  | .pre_briefing =>
      { s with phase_completed := { s.phase_completed with pre_briefing := completed } }
  | .main_simulation =>
      { s with phase_completed := { s.phase_completed with main_simulation := completed } }
  | .debriefing =>
      { s with phase_completed := { s.phase_completed with debriefing := completed } }

/-- `is_phase_completed(phase)`. -/
def is_phase_completed (phase : SimulationPhase) (s : AppState) : Bool :=
  match phase with
  | .pre_briefing => s.phase_completed.pre_briefing
  | .main_simulation => s.phase_completed.main_simulation
  | .debriefing => s.phase_completed.debriefing

/-- The sidebar line `if api_key: st.session_state.api_key = api_key`, which
runs on every script run before any button handler. -/
def apiStore (api_key : String) (s : AppState) : AppState :=
  if api_key != "" then { s with api_key := some api_key } else s

/-- `switch_avatar(avatar_key)`: best-effort stop of the current session
(only when a session id is live and an API key has been stored), then set the
new avatar and clear both session fields.  No new session is created here. -/
def switch_avatar (avatar_key : AvatarKey) (o : StopOracle) (s : AppState) :
    AppState × Effects :=
  let eff :=
    if truthy s.session_id && s.api_key.isSome then
      (stop_avatar_session (s.api_key.getD "") s.session_id o).2
    else Effects.empty
  ({ s with current_avatar := avatar_key, session_id := none, session_data := none },
   eff)

/-- A conversation entry appended for an avatar script line. -/
def avatarEntry (sc : Script) (now : String) (who : AvatarKey) : ConvEntry :=
  { role := "avatar"
    content := sc.text
    emotion := some sc.emotion
    timestamp := now
    avatar := some who }

/-- The sidebar phase-progression buttons (one button is rendered per phase,
only while the simulation is started).  At PreBriefing and MainSimulation the
handler advances the phase, marks the old phase complete, switches the
avatar (tearing down the session), and queues the new phase's first script
line while appending its conversation entry; at Debriefing the handler only
marks the Debriefing phase complete. -/
def advanceButton (api_key now : String) (o : StopOracle) (s0 : AppState) :
    AppState × Effects :=
  let s := apiStore api_key s0
  if s.simulation_started then
    match s.simulation_phase with
    | .pre_briefing =>
        let s1 := set_phase_completed .pre_briefing
          { s with simulation_phase := .main_simulation }
        let r := switch_avatar .sam o s1
        (match get_phase_scripts .main_simulation with
         | [] => (r.1, r.2)
         | sc :: _ =>
            ({ r.1 with pending_script := some sc
                        conversation_history :=
                          r.1.conversation_history ++ [avatarEntry sc now .sam] },
             r.2))
    | .main_simulation =>
        let s1 := set_phase_completed .main_simulation
          { s with simulation_phase := .debriefing }
        let r := switch_avatar .noa o s1
        (match get_phase_scripts .debriefing with
         | [] => (r.1, r.2)
         | sc :: _ =>
            ({ r.1 with pending_script := some sc
                        conversation_history :=
                          r.1.conversation_history ++ [avatarEntry sc now .noa] },
             r.2))
    | .debriefing =>
        (set_phase_completed .debriefing s, Effects.empty)
  else (s, Effects.empty)

/-- The sidebar Reset Simulation button: best-effort stop of a live session
(when the sidebar API key is non-empty), then reset the conversation history,
phase, started flag, session fields, current avatar and completion map to
their initial values.  The `pending_script` and stored `api_key` keys are
not touched. -/
def resetButton (api_key : String) (o : StopOracle) (s0 : AppState) :
    AppState × Effects :=
  let s := apiStore api_key s0
  let eff :=
    if truthy s.session_id && api_key != "" then
      (stop_avatar_session api_key s.session_id o).2
    else Effects.empty
  ({ s with conversation_history := []
            simulation_phase := .pre_briefing
            simulation_started := false
            session_id := none
            session_data := none
            current_avatar := .noa
            phase_completed :=
              { pre_briefing := false, main_simulation := false, debriefing := false } },
   eff)

/-- The Start Simulation button (rendered only while not started, enabled
only with a non-empty API key): creates a streaming session for the current
avatar; on success stores the session fields, marks the simulation started,
and queues PreBriefing's first script line while appending its conversation
entry; on failure surfaces an error and changes nothing else. -/
def startButton (api_key now : String) (o : SessionOracle) (s0 : AppState) :
    AppState × Effects :=
  let s := apiStore api_key s0
  if s.simulation_started then (s, Effects.empty)
  else if api_key == "" then (s, Effects.empty)
  else
    let info := AVATARS s.current_avatar
    let r := create_streaming_session api_key info.avatar_id
      (some info.knowledge_base_id) o
    match r.1 with
    | some session_data =>
        let s1 := { s with session_id := session_data.session_id
                           session_data := some session_data
                           simulation_started := true }
        (match get_phase_scripts .pre_briefing with
         | [] => (s1, r.2)
         | sc :: _ =>
            ({ s1 with pending_script := some sc
                       conversation_history :=
                         s1.conversation_history ++ [avatarEntry sc now .noa] },
             r.2))
    | none =>
        (s, r.2 ++ { calls := [],
                     errors := ["Failed to create avatar session. Please check your API key and try again."] })

/-- The phase-script buttons (three in PreBriefing, three in Debriefing; the
MainSimulation phase has no script buttons).  The handler speaks the selected
script line and appends its conversation entry only when the speak call
succeeds. -/
def scriptButton (api_key now : String) (i : Nat) (o : SpeakOracle)
    (s0 : AppState) : AppState × Effects :=
  let s := apiStore api_key s0
  if s.simulation_started then
    match s.simulation_phase with
    | .main_simulation => (s, Effects.empty)
    | _ =>
        let phase_scripts := get_phase_scripts s.simulation_phase
        let sc := phase_scripts.getD i default
        let r := speak_to_avatar api_key s.session_id sc.text o
        if r.1 then
          ({ s with conversation_history :=
              s.conversation_history ++ [avatarEntry sc now s.current_avatar] },
           r.2)
        else (s, r.2)
  else (s, Effects.empty)

/-- The Send Response button of the MainSimulation phase: with a non-empty
input, appends a user entry to the conversation history; no avatar call is
made (nothing triggers a reply). -/
def sendResponseButton (api_key now user_input : String) (s0 : AppState) :
    AppState × Effects :=
  let s := apiStore api_key s0
  if s.simulation_started then
    match s.simulation_phase with
    | .main_simulation =>
        if user_input != "" then
          ({ s with conversation_history :=
              s.conversation_history ++
                [{ role := "user", content := user_input, emotion := none,
                   timestamp := now, avatar := none }] },
           Effects.empty)
        else (s, Effects.empty)
    | _ => (s, Effects.empty)
  else (s, Effects.empty)

/-- The pending-script block at the bottom of app.py, run at the end of a
script run: if a `pending_script` is queued and the simulation is started,
speak it; the queued script is deleted only when the speak call succeeds.
The conversation history is never touched here. -/
def pendingHandler (api_key : String) (o : SpeakOracle) (s0 : AppState) :
    AppState × Effects :=
  let s := apiStore api_key s0
  match s.pending_script with
  | some script =>
      if s.simulation_started then
        let r := speak_to_avatar api_key s.session_id script.text o
        if r.1 then ({ s with pending_script := none }, r.2) else (s, r.2)
      else (s, Effects.empty)
  | none => (s, Effects.empty)

/-- One user-visible action of the application: a button handler or the
end-of-run pending-script block, under an arbitrary network oracle. -/
inductive Step : AppState → AppState → Prop
  | start (api_key now : String) (o : SessionOracle) (s : AppState) :
      Step s (startButton api_key now o s).1
  | advance (api_key now : String) (o : StopOracle) (s : AppState) :
      Step s (advanceButton api_key now o s).1
  | reset (api_key : String) (o : StopOracle) (s : AppState) :
      Step s (resetButton api_key o s).1
  | script (api_key now : String) (i : Nat) (o : SpeakOracle) (s : AppState) :
      Step s (scriptButton api_key now i o s).1
  | send (api_key now user_input : String) (s : AppState) :
      Step s (sendResponseButton api_key now user_input s).1
  | pending (api_key : String) (o : SpeakOracle) (s : AppState) :
      Step s (pendingHandler api_key o s).1

/-- States reachable from the initial state by any sequence of actions. -/
def Reachable (s : AppState) : Prop :=
  Relation.ReflTransGen Step initialState s

/-- The avatar key the specification associates with each phase (Instructor
for PreBriefing and Debriefing, PatientCharacter for MainSimulation). -/
def avatarForPhase : SimulationPhase → AvatarKey
  | .pre_briefing => .noa
  | .main_simulation => .sam
  | .debriefing => .noa

/-- The successor of each phase under `advance` (Debriefing is terminal). -/
def phaseStep : SimulationPhase → SimulationPhase
  | .pre_briefing => .main_simulation
  | .main_simulation => .debriefing
  | .debriefing => .debriefing

/-- Position of a phase in the forward order. -/
def phaseIdx : SimulationPhase → Nat
  | .pre_briefing => 0
  | .main_simulation => 1
  | .debriefing => 2

/-- Inputs of one press of the sidebar progression button. -/
structure AdvanceArgs where
  api_key : String
  now : String
  oracle : StopOracle

/-- A sequence of presses of the sidebar progression button. -/
def advanceSeq : List AdvanceArgs → AppState → AppState
  | [], s => s
  | a :: rest, s => advanceSeq rest (advanceButton a.api_key a.now a.oracle s).1

section Fixtures

/-- An oracle under which session creation succeeds. -/
def demoSessionOracle : SessionOracle :=
  { tokenResult := .success (some "tok")
    newResult := .success { session_id := some "sid", access_token := some "at", url := some "u" } }

/-- An oracle under which the stop call succeeds. -/
def demoStopOracle : StopOracle :=
  { tokenResult := .success (some "tok"), stopResult := .status 200 }

/-- An oracle under which a speak call succeeds. -/
def demoSpeakOracle : SpeakOracle :=
  { tokenResult := .success (some "tok"), taskResult := .status 200 }

/-- An oracle under which the token call succeeds but the speak task comes
back with HTTP 500: `speak_to_avatar` returns `False` with no error surfaced. -/
def failSpeakOracle : SpeakOracle :=
  { tokenResult := .success (some "tok"), taskResult := .status 500 }

/-- The state after a successful Start Simulation press on the initial
state: started, PreBriefing, one logged entry, first script line pending. -/
def startedState : AppState :=
  (startButton "k" "t0" demoSessionOracle initialState).1

/-- A started MainSimulation state, reached by advancing `startedState`. -/
def mainPhaseState : AppState :=
  (advanceButton "k" "t1" demoStopOracle startedState).1

/-- An oracle under which the token call fails with HTTP 401. -/
def failTokenSessionOracle : SessionOracle :=
  { tokenResult := .httpError 401 "Unauthorized"
    newResult := .success { session_id := none, access_token := none, url := none } }

end Fixtures

section HelperLemmas

lemma startedState_reachable : Reachable startedState :=
  Relation.ReflTransGen.single (Step.start "k" "t0" demoSessionOracle initialState)

lemma mainPhaseState_reachable : Reachable mainPhaseState :=
  Relation.ReflTransGen.tail startedState_reachable
    (Step.advance "k" "t1" demoStopOracle startedState)

@[simp] lemma Effects.append_calls (a b : Effects) : (a ++ b).calls = a.calls ++ b.calls := rfl

@[simp] lemma Effects.append_errors (a b : Effects) : (a ++ b).errors = a.errors ++ b.errors := rfl

@[simp] lemma apiStore_session_id (k : String) (s : AppState) :
    (apiStore k s).session_id = s.session_id := by
  unfold apiStore; split <;> rfl

@[simp] lemma apiStore_session_data (k : String) (s : AppState) :
    (apiStore k s).session_data = s.session_data := by
  unfold apiStore; split <;> rfl

@[simp] lemma apiStore_conversation_history (k : String) (s : AppState) :
    (apiStore k s).conversation_history = s.conversation_history := by
  unfold apiStore; split <;> rfl

@[simp] lemma apiStore_simulation_phase (k : String) (s : AppState) :
    (apiStore k s).simulation_phase = s.simulation_phase := by
  unfold apiStore; split <;> rfl

@[simp] lemma apiStore_simulation_started (k : String) (s : AppState) :
    (apiStore k s).simulation_started = s.simulation_started := by
  unfold apiStore; split <;> rfl

@[simp] lemma apiStore_current_avatar (k : String) (s : AppState) :
    (apiStore k s).current_avatar = s.current_avatar := by
  unfold apiStore; split <;> rfl

@[simp] lemma apiStore_phase_completed (k : String) (s : AppState) :
    (apiStore k s).phase_completed = s.phase_completed := by
  unfold apiStore; split <;> rfl

@[simp] lemma apiStore_pending_script (k : String) (s : AppState) :
    (apiStore k s).pending_script = s.pending_script := by
  unfold apiStore; split <;> rfl

lemma create_streaming_token_calls (k : String) (t : TokenCallResult) :
    (create_streaming_token k t).2.calls = [RemoteCall.create_token] := by
  cases t <;> rfl

lemma stop_avatar_session_calls_sub (k : String) (sid : Option String)
    (o : StopOracle) (c : RemoteCall)
    (h : c ∈ (stop_avatar_session k sid o).2.calls) :
    c = RemoteCall.create_token ∨ c = RemoteCall.stop := by
  unfold stop_avatar_session at h
  rcases o with ⟨tr, sr⟩
  cases tr <;> cases sr <;>
    simp [create_streaming_token, Effects.append] at h <;>
    split at h <;> simp_all

lemma create_streaming_session_calls_sub (k a : String) (kb : Option String)
    (o : SessionOracle) (c : RemoteCall)
    (h : c ∈ (create_streaming_session k a kb o).2.calls) :
    c = RemoteCall.create_token ∨ c = RemoteCall.new_session := by
  unfold create_streaming_session at h
  rcases o with ⟨tr, nr⟩
  cases tr <;> cases nr <;>
    simp [create_streaming_token, Effects.append] at h <;>
    split at h <;> simp_all

lemma switch_avatar_no_new_session (k : AvatarKey) (o : StopOracle) (s : AppState) :
    RemoteCall.new_session ∉ (switch_avatar k o s).2.calls := by
  unfold switch_avatar
  intro h
  split at h
  · rcases stop_avatar_session_calls_sub _ _ _ _ h with h1 | h1 <;> exact absurd h1 (by simp)
  · simp [Effects.empty] at h

lemma switch_avatar_no_task (k : AvatarKey) (o : StopOracle) (s : AppState) :
    RemoteCall.task ∉ (switch_avatar k o s).2.calls := by
  unfold switch_avatar
  intro h
  split at h
  · rcases stop_avatar_session_calls_sub _ _ _ _ h with h1 | h1 <;> exact absurd h1 (by simp)
  · simp [Effects.empty] at h

lemma advanceButton_not_started (a n : String) (o : StopOracle) (s : AppState)
    (hs : s.simulation_started = false) :
    advanceButton a n o s = (apiStore a s, Effects.empty) := by
  unfold advanceButton
  simp [hs]

lemma advanceButton_pre_eq (a n : String) (o : StopOracle) (s : AppState)
    (hs : s.simulation_started = true) (hp : s.simulation_phase = .pre_briefing) :
    advanceButton a n o s =
      ({ apiStore a s with
           simulation_phase := .main_simulation
           phase_completed := { (apiStore a s).phase_completed with pre_briefing := true }
           current_avatar := .sam
           session_id := none
           session_data := none
           pending_script := some ((get_phase_scripts .main_simulation).getD 0 default)
           conversation_history := s.conversation_history ++
             [avatarEntry ((get_phase_scripts .main_simulation).getD 0 default) n .sam] },
       (switch_avatar .sam o (apiStore a s)).2) := by
  unfold advanceButton
  simp [hs, hp, set_phase_completed, switch_avatar, get_phase_scripts, avatarEntry]

lemma advanceButton_main_eq (a n : String) (o : StopOracle) (s : AppState)
    (hs : s.simulation_started = true) (hp : s.simulation_phase = .main_simulation) :
    advanceButton a n o s =
      ({ apiStore a s with
           simulation_phase := .debriefing
           phase_completed := { (apiStore a s).phase_completed with main_simulation := true }
           current_avatar := .noa
           session_id := none
           session_data := none
           pending_script := some ((get_phase_scripts .debriefing).getD 0 default)
           conversation_history := s.conversation_history ++
             [avatarEntry ((get_phase_scripts .debriefing).getD 0 default) n .noa] },
       (switch_avatar .noa o (apiStore a s)).2) := by
  unfold advanceButton
  simp [hs, hp, set_phase_completed, switch_avatar, get_phase_scripts, avatarEntry]

lemma advanceButton_deb_eq (a n : String) (o : StopOracle) (s : AppState)
    (hs : s.simulation_started = true) (hp : s.simulation_phase = .debriefing) :
    advanceButton a n o s =
      ({ apiStore a s with
           phase_completed := { (apiStore a s).phase_completed with debriefing := true } },
       Effects.empty) := by
  unfold advanceButton
  simp [hs, hp, set_phase_completed]

lemma startButton_started (a n : String) (o : SessionOracle) (s : AppState)
    (hs : s.simulation_started = true) :
    startButton a n o s = (apiStore a s, Effects.empty) := by
  unfold startButton
  simp [hs]

lemma startButton_nokey (a n : String) (o : SessionOracle) (s : AppState)
    (hs : s.simulation_started = false) (hk : a = "") :
    startButton a n o s = (apiStore a s, Effects.empty) := by
  unfold startButton
  simp [hs, hk]

lemma startButton_fail (a n : String) (o : SessionOracle) (s : AppState)
    (hs : s.simulation_started = false) (hk : a ≠ "")
    (hfail : (create_streaming_session a (AVATARS s.current_avatar).avatar_id
        (some (AVATARS s.current_avatar).knowledge_base_id) o).1 = none) :
    startButton a n o s =
      (apiStore a s,
       (create_streaming_session a (AVATARS s.current_avatar).avatar_id
          (some (AVATARS s.current_avatar).knowledge_base_id) o).2 ++
         { calls := [],
           errors := ["Failed to create avatar session. Please check your API key and try again."] }) := by
  unfold startButton
  simp [hs, hk, hfail]

lemma startButton_success (a n : String) (o : SessionOracle) (s : AppState)
    (sd : SessionData)
    (hs : s.simulation_started = false) (hk : a ≠ "")
    (hsucc : (create_streaming_session a (AVATARS s.current_avatar).avatar_id
        (some (AVATARS s.current_avatar).knowledge_base_id) o).1 = some sd) :
    startButton a n o s =
      ({ apiStore a s with
           session_id := sd.session_id
           session_data := some sd
           simulation_started := true
           pending_script := some ((get_phase_scripts .pre_briefing).getD 0 default)
           conversation_history := s.conversation_history ++
             [avatarEntry ((get_phase_scripts .pre_briefing).getD 0 default) n .noa] },
       (create_streaming_session a (AVATARS s.current_avatar).avatar_id
          (some (AVATARS s.current_avatar).knowledge_base_id) o).2) := by
  unfold startButton
  simp [hs, hk, hsucc, get_phase_scripts, avatarEntry]

lemma scriptButton_not_started (a n : String) (i : Nat) (o : SpeakOracle) (s : AppState)
    (hs : s.simulation_started = false) :
    scriptButton a n i o s = (apiStore a s, Effects.empty) := by
  unfold scriptButton
  simp [hs]

lemma scriptButton_main (a n : String) (i : Nat) (o : SpeakOracle) (s : AppState)
    (hs : s.simulation_started = true) (hp : s.simulation_phase = .main_simulation) :
    scriptButton a n i o s = (apiStore a s, Effects.empty) := by
  unfold scriptButton
  simp [hs, hp]

lemma scriptButton_speak_fail (a n : String) (i : Nat) (o : SpeakOracle) (s : AppState)
    (hs : s.simulation_started = true) (hp : s.simulation_phase ≠ .main_simulation)
    (hfail : (speak_to_avatar a s.session_id
        ((get_phase_scripts s.simulation_phase).getD i default).text o).1 = false) :
    scriptButton a n i o s =
      (apiStore a s,
       (speak_to_avatar a s.session_id
          ((get_phase_scripts s.simulation_phase).getD i default).text o).2) := by
  unfold scriptButton
  cases hpv : s.simulation_phase with
  | main_simulation => exact absurd hpv hp
  | pre_briefing =>
      rw [hpv] at hfail
      simp only [List.getD_eq_getElem?_getD] at hfail
      simp [hs, hpv, hfail]
  | debriefing =>
      rw [hpv] at hfail
      simp only [List.getD_eq_getElem?_getD] at hfail
      simp [hs, hpv, hfail]

lemma scriptButton_speak_ok (a n : String) (i : Nat) (o : SpeakOracle) (s : AppState)
    (hs : s.simulation_started = true) (hp : s.simulation_phase ≠ .main_simulation)
    (hok : (speak_to_avatar a s.session_id
        ((get_phase_scripts s.simulation_phase).getD i default).text o).1 = true) :
    scriptButton a n i o s =
      ({ apiStore a s with
           conversation_history := s.conversation_history ++
             [avatarEntry ((get_phase_scripts s.simulation_phase).getD i default) n
               s.current_avatar] },
       (speak_to_avatar a s.session_id
          ((get_phase_scripts s.simulation_phase).getD i default).text o).2) := by
  unfold scriptButton
  cases hpv : s.simulation_phase with
  | main_simulation => exact absurd hpv hp
  | pre_briefing =>
      rw [hpv] at hok
      simp only [List.getD_eq_getElem?_getD] at hok
      simp [hs, hpv, hok]
  | debriefing =>
      rw [hpv] at hok
      simp only [List.getD_eq_getElem?_getD] at hok
      simp [hs, hpv, hok]

lemma sendResponseButton_eq (a n input : String) (s : AppState)
    (hs : s.simulation_started = true) (hp : s.simulation_phase = .main_simulation)
    (hi : input ≠ "") :
    sendResponseButton a n input s =
      ({ apiStore a s with
           conversation_history := s.conversation_history ++
             [{ role := "user", content := input, emotion := none,
                timestamp := n, avatar := none }] },
       Effects.empty) := by
  unfold sendResponseButton
  simp [hs, hp, hi]

lemma sendResponseButton_frame (a n input : String) (s : AppState) :
    (sendResponseButton a n input s).1.simulation_phase = s.simulation_phase ∧
    (sendResponseButton a n input s).1.current_avatar = s.current_avatar ∧
    (sendResponseButton a n input s).1.simulation_started = s.simulation_started ∧
    (sendResponseButton a n input s).1.pending_script = s.pending_script := by
  unfold sendResponseButton
  cases hsv : s.simulation_started <;>
    cases hpv : s.simulation_phase <;>
    by_cases hi : input != "" <;>
    simp_all

lemma pendingHandler_stuck (a : String) (o : SpeakOracle) (s : AppState)
    (h : s.pending_script = none ∨ s.simulation_started = false) :
    pendingHandler a o s = (apiStore a s, Effects.empty) := by
  unfold pendingHandler
  rcases h with h | h
  · simp [h]
  · cases hpv : s.pending_script <;> simp [h, hpv]

lemma pendingHandler_speak (a : String) (o : SpeakOracle) (s : AppState)
    (script : Script)
    (hp : s.pending_script = some script) (hs : s.simulation_started = true) :
    pendingHandler a o s =
      (if (speak_to_avatar a s.session_id script.text o).1 then
         { apiStore a s with pending_script := none }
       else apiStore a s,
       (speak_to_avatar a s.session_id script.text o).2) := by
  unfold pendingHandler
  simp only [apiStore_pending_script, hp, apiStore_simulation_started, hs,
    apiStore_session_id, if_true]
  split <;> simp_all

lemma resetButton_eq (a : String) (o : StopOracle) (s : AppState) :
    resetButton a o s =
      ({ apiStore a s with
           conversation_history := []
           simulation_phase := .pre_briefing
           simulation_started := false
           session_id := none
           session_data := none
           current_avatar := .noa
           phase_completed :=
             { pre_briefing := false, main_simulation := false, debriefing := false } },
       if truthy s.session_id && (a != "") then
         (stop_avatar_session a s.session_id o).2
       else Effects.empty) := by
  unfold resetButton
  simp

lemma advanceButton_phase (a n : String) (o : StopOracle) (s : AppState)
    (hs : s.simulation_started = true) :
    (advanceButton a n o s).1.simulation_phase = phaseStep s.simulation_phase ∧
    (advanceButton a n o s).1.simulation_started = true := by
  cases hp : s.simulation_phase with
  | pre_briefing => rw [advanceButton_pre_eq a n o s hs hp]; simp [phaseStep, hs, hp]
  | main_simulation => rw [advanceButton_main_eq a n o s hs hp]; simp [phaseStep, hs, hp]
  | debriefing => rw [advanceButton_deb_eq a n o s hs hp]; simp [phaseStep, hs, hp]

lemma phaseStep_iterate_debriefing (k : Nat) :
    phaseStep^[k] SimulationPhase.debriefing = SimulationPhase.debriefing := by
  induction k with
  | zero => rfl
  | succ k ih => rw [Function.iterate_succ_apply, show phaseStep .debriefing = .debriefing from rfl, ih]

lemma phaseIdx_le_iterate (k : Nat) (p : SimulationPhase) :
    phaseIdx p ≤ phaseIdx (phaseStep^[k] p) := by
  induction k generalizing p with
  | zero => simp
  | succ k ih =>
      rw [Function.iterate_succ_apply]
      exact le_trans (by cases p <;> decide) (ih (phaseStep p))

lemma startButton_avatar_phase (a n : String) (o : SessionOracle) (s : AppState) :
    (startButton a n o s).1.current_avatar = s.current_avatar ∧
    (startButton a n o s).1.simulation_phase = s.simulation_phase := by
  cases hsv : s.simulation_started with
  | true => rw [startButton_started a n o s hsv]; simp
  | false =>
      by_cases hk : a = ""
      · rw [startButton_nokey a n o s hsv hk]; simp
      · cases hres : (create_streaming_session a (AVATARS s.current_avatar).avatar_id
            (some (AVATARS s.current_avatar).knowledge_base_id) o).1 with
        | none => rw [startButton_fail a n o s hsv hk hres]; simp
        | some sd => rw [startButton_success a n o s sd hsv hk hres]; simp

lemma scriptButton_avatar_phase (a n : String) (i : Nat) (o : SpeakOracle) (s : AppState) :
    (scriptButton a n i o s).1.current_avatar = s.current_avatar ∧
    (scriptButton a n i o s).1.simulation_phase = s.simulation_phase := by
  cases hsv : s.simulation_started with
  | false => rw [scriptButton_not_started a n i o s hsv]; simp
  | true =>
      by_cases hpv : s.simulation_phase = .main_simulation
      · rw [scriptButton_main a n i o s hsv hpv]; simp
      · cases hok : (speak_to_avatar a s.session_id
            ((get_phase_scripts s.simulation_phase).getD i default).text o).1 with
        | false => rw [scriptButton_speak_fail a n i o s hsv hpv hok]; simp
        | true => rw [scriptButton_speak_ok a n i o s hsv hpv hok]; simp

lemma pendingHandler_avatar_phase (a : String) (o : SpeakOracle) (s : AppState) :
    (pendingHandler a o s).1.current_avatar = s.current_avatar ∧
    (pendingHandler a o s).1.simulation_phase = s.simulation_phase := by
  cases hpv : s.pending_script with
  | none => rw [pendingHandler_stuck a o s (Or.inl hpv)]; simp
  | some script =>
      cases hsv : s.simulation_started with
      | false => rw [pendingHandler_stuck a o s (Or.inr hsv)]; simp
      | true =>
          rw [pendingHandler_speak a o s script hpv hsv]
          split <;> simp

lemma pendingHandler_history (a : String) (o : SpeakOracle) (s : AppState) :
    (pendingHandler a o s).1.conversation_history = s.conversation_history := by
  cases hpv : s.pending_script with
  | none => rw [pendingHandler_stuck a o s (Or.inl hpv)]; simp
  | some script =>
      cases hsv : s.simulation_started with
      | false => rw [pendingHandler_stuck a o s (Or.inr hsv)]; simp
      | true =>
          rw [pendingHandler_speak a o s script hpv hsv]
          split <;> simp

lemma advanceButton_consistent (a n : String) (o : StopOracle) (s : AppState)
    (ih : s.current_avatar = avatarForPhase s.simulation_phase) :
    (advanceButton a n o s).1.current_avatar =
      avatarForPhase (advanceButton a n o s).1.simulation_phase := by
  cases hsv : s.simulation_started with
  | false =>
      rw [advanceButton_not_started a n o s hsv]
      simpa using ih
  | true =>
      cases hpv : s.simulation_phase with
      | pre_briefing => rw [advanceButton_pre_eq a n o s hsv hpv]; simp [avatarForPhase]
      | main_simulation => rw [advanceButton_main_eq a n o s hsv hpv]; simp [avatarForPhase]
      | debriefing =>
          rw [advanceButton_deb_eq a n o s hsv hpv]
          rw [hpv] at ih
          simpa [hpv] using ih

end HelperLemmas

/-- C3: for every sequence of presses of the advance button from a started
state, the phase follows the forward order PreBriefing, MainSimulation,
Debriefing (iterating `phaseStep`), never moves backward, and once the phase
is Debriefing no sequence of further advances changes it. -/
theorem advance_sequence_forward (s : AppState) (l : List AdvanceArgs)
    (hs : s.simulation_started = true) :
    (advanceSeq l s).simulation_phase = phaseStep^[l.length] s.simulation_phase ∧
    phaseIdx s.simulation_phase ≤ phaseIdx (advanceSeq l s).simulation_phase ∧
    (s.simulation_phase = .debriefing →
      (advanceSeq l s).simulation_phase = .debriefing) := by
  have main : ∀ (l : List AdvanceArgs) (s : AppState), s.simulation_started = true →
      (advanceSeq l s).simulation_phase = phaseStep^[l.length] s.simulation_phase := by
    intro l
    induction l with
    | nil => intro s hs; rfl
    | cons a rest ih =>
        intro s hs
        have h1 := advanceButton_phase a.api_key a.now a.oracle s hs
        show (advanceSeq rest (advanceButton a.api_key a.now a.oracle s).1).simulation_phase = _
        rw [ih _ h1.2, h1.1, List.length_cons, Function.iterate_succ_apply]
  refine ⟨main l s hs, ?_, ?_⟩
  · rw [main l s hs]
    exact phaseIdx_le_iterate _ _
  · intro hd
    rw [main l s hs, hd, phaseStep_iterate_debriefing]

/-- C3 witness: one advance from the concrete started PreBriefing state. -/
theorem advance_sequence_forward_witness :
    (advanceSeq [{ api_key := "k", now := "t1", oracle := demoStopOracle }]
        startedState).simulation_phase =
      phaseStep^[1] startedState.simulation_phase :=
  (advance_sequence_forward startedState
    [{ api_key := "k", now := "t1", oracle := demoStopOracle }] (by decide)).1

/-- C4: in every reachable state the active avatar is the instructor (noa)
in the PreBriefing and Debriefing phases and the patient (sam) in the
MainSimulation phase. -/
theorem avatar_consistent_with_phase (s : AppState) (h : Reachable s) :
    s.current_avatar = avatarForPhase s.simulation_phase := by
  have step_preserves : ∀ {x y : AppState}, Step x y →
      x.current_avatar = avatarForPhase x.simulation_phase →
      y.current_avatar = avatarForPhase y.simulation_phase := by
    intro x y hstep ih
    cases hstep with
    | start a n o =>
        have hh := startButton_avatar_phase a n o x
        rw [hh.1, hh.2]; exact ih
    | advance a n o => exact advanceButton_consistent a n o x ih
    | reset a o => rw [resetButton_eq]; simp [avatarForPhase]
    | script a n i o =>
        have hh := scriptButton_avatar_phase a n i o x
        rw [hh.1, hh.2]; exact ih
    | send a n inp =>
        have hh := sendResponseButton_frame a n inp x
        rw [hh.2.1, hh.1]; exact ih
    | pending a o =>
        have hh := pendingHandler_avatar_phase a o x
        rw [hh.1, hh.2]; exact ih
  unfold Reachable at h
  induction h with
  | refl => rfl
  | tail hsteps hstep ih => exact step_preserves hstep ih

/-- C4 witness: the reachable started MainSimulation state has sam active. -/
theorem avatar_consistent_with_phase_witness :
    mainPhaseState.current_avatar = avatarForPhase mainPhaseState.simulation_phase :=
  avatar_consistent_with_phase mainPhaseState mainPhaseState_reachable

/-- C5: when `createSession` fails during the Start Simulation handler, the
started flag stays false and the conversation log, session fields and
pending script are exactly what they were before the press. -/
theorem start_failure_leaves_state (api_key now : String) (o : SessionOracle)
    (s : AppState)
    (hs : s.simulation_started = false) (hk : api_key ≠ "")
    (hfail : (create_streaming_session api_key (AVATARS s.current_avatar).avatar_id
        (some (AVATARS s.current_avatar).knowledge_base_id) o).1 = none) :
    (startButton api_key now o s).1.simulation_started = false ∧
    (startButton api_key now o s).1.conversation_history = s.conversation_history ∧
    (startButton api_key now o s).1.session_id = s.session_id ∧
    (startButton api_key now o s).1.session_data = s.session_data ∧
    (startButton api_key now o s).1.pending_script = s.pending_script := by
  rw [startButton_fail api_key now o s hs hk hfail]
  simp [hs]

/-- C5 witness: a 401 on the token call from the initial state. -/
theorem start_failure_leaves_state_witness :
    initialState.simulation_started = false ∧
    (create_streaming_session "k" (AVATARS initialState.current_avatar).avatar_id
        (some (AVATARS initialState.current_avatar).knowledge_base_id)
        failTokenSessionOracle).1 = none ∧
    (startButton "k" "t0" failTokenSessionOracle initialState).1.simulation_started = false ∧
    (startButton "k" "t0" failTokenSessionOracle
        initialState).1.conversation_history = initialState.conversation_history :=
  ⟨rfl, by decide,
   (start_failure_leaves_state "k" "t0" failTokenSessionOracle initialState rfl
      (by decide) (by decide)).1,
   (start_failure_leaves_state "k" "t0" failTokenSessionOracle initialState rfl
      (by decide) (by decide)).2.1⟩

/-- C7: in `create_streaming_session`, when the token exchange yields no
usable token, the `streaming.new` call is never issued and the operation
returns `None`. -/
theorem tokenless_create_session_aborts (api_key avatar_id : String)
    (kb : Option String) (o : SessionOracle)
    (h : truthy (create_streaming_token api_key o.tokenResult).1 = false) :
    (create_streaming_session api_key avatar_id kb o).1 = none ∧
      RemoteCall.new_session ∉ (create_streaming_session api_key avatar_id kb o).2.calls := by
  unfold create_streaming_session
  constructor
  · simp [h]
  · simp [h, create_streaming_token_calls]

/-- C7 witness: a 401 on the token call. -/
theorem tokenless_create_session_aborts_witness :
    truthy (create_streaming_token "k" failTokenSessionOracle.tokenResult).1 = false ∧
    (create_streaming_session "k" "a" none failTokenSessionOracle).1 = none ∧
    RemoteCall.new_session ∉
      (create_streaming_session "k" "a" none failTokenSessionOracle).2.calls :=
  ⟨by decide,
   (tokenless_create_session_aborts "k" "a" none failTokenSessionOracle (by decide)).1,
   (tokenless_create_session_aborts "k" "a" none failTokenSessionOracle (by decide)).2⟩

/-- C8: with a non-empty input in the started MainSimulation phase, the Send
Response handler appends exactly one user entry with the given content and
performs no avatar-service call and surfaces no error; phase, avatar and
pending script are unchanged. -/
theorem send_response_appends_user_entry (api_key now user_input : String)
    (s : AppState)
    (hs : s.simulation_started = true) (hp : s.simulation_phase = .main_simulation)
    (hi : user_input ≠ "") :
    (sendResponseButton api_key now user_input s).1.conversation_history =
      s.conversation_history ++
        [{ role := "user", content := user_input, emotion := none,
           timestamp := now, avatar := none }] ∧
    (sendResponseButton api_key now user_input s).2.calls = [] ∧
    (sendResponseButton api_key now user_input s).2.errors = [] ∧
    (sendResponseButton api_key now user_input s).1.simulation_phase = s.simulation_phase ∧
    (sendResponseButton api_key now user_input s).1.current_avatar = s.current_avatar ∧
    (sendResponseButton api_key now user_input s).1.pending_script = s.pending_script := by
  rw [sendResponseButton_eq api_key now user_input s hs hp hi]
  simp [Effects.empty]

/-- C8 witness: a concrete response in the reachable MainSimulation state. -/
theorem send_response_appends_user_entry_witness :
    (sendResponseButton "k" "t2" "I understand your concerns"
        mainPhaseState).1.conversation_history =
      mainPhaseState.conversation_history ++
        [{ role := "user", content := "I understand your concerns", emotion := none,
           timestamp := "t2", avatar := none }] ∧
    (sendResponseButton "k" "t2" "I understand your concerns" mainPhaseState).2.calls = [] :=
  ⟨(send_response_appends_user_entry "k" "t2" "I understand your concerns"
      mainPhaseState (by decide) (by decide) (by decide)).1,
   (send_response_appends_user_entry "k" "t2" "I understand your concerns"
      mainPhaseState (by decide) (by decide) (by decide)).2.1⟩

/-- C9: on a successful start and on both phase transitions, the new
phase's first script line is appended to the log at that moment, with no
speak call issued by the handler itself; the deferred pending-script block
never modifies the log, so the entry persists even if the deferred speak
fails. -/
theorem first_line_logged_unconditionally (api_key now : String)
    (o : SessionOracle) (o2 : StopOracle) (o3 : SpeakOracle)
    (s : AppState) (sd : SessionData) :
    (s.simulation_started = false → api_key ≠ "" →
      (create_streaming_session api_key (AVATARS s.current_avatar).avatar_id
        (some (AVATARS s.current_avatar).knowledge_base_id) o).1 = some sd →
      (startButton api_key now o s).1.conversation_history =
        s.conversation_history ++
          [avatarEntry ((get_phase_scripts .pre_briefing).getD 0 default) now .noa] ∧
      RemoteCall.task ∉ (startButton api_key now o s).2.calls) ∧
    (s.simulation_started = true → s.simulation_phase = .pre_briefing →
      (advanceButton api_key now o2 s).1.conversation_history =
        s.conversation_history ++
          [avatarEntry ((get_phase_scripts .main_simulation).getD 0 default) now .sam] ∧
      RemoteCall.task ∉ (advanceButton api_key now o2 s).2.calls) ∧
    (s.simulation_started = true → s.simulation_phase = .main_simulation →
      (advanceButton api_key now o2 s).1.conversation_history =
        s.conversation_history ++
          [avatarEntry ((get_phase_scripts .debriefing).getD 0 default) now .noa] ∧
      RemoteCall.task ∉ (advanceButton api_key now o2 s).2.calls) ∧
    (pendingHandler api_key o3 s).1.conversation_history = s.conversation_history := by
  refine ⟨?_, ?_, ?_, pendingHandler_history api_key o3 s⟩
  · intro hs hk hsucc
    rw [startButton_success api_key now o s sd hs hk hsucc]
    refine ⟨by simp, ?_⟩
    intro hmem
    rcases create_streaming_session_calls_sub _ _ _ _ _ hmem with h1 | h1 <;> simp at h1
  · intro hs hp
    rw [advanceButton_pre_eq api_key now o2 s hs hp]
    exact ⟨by simp, switch_avatar_no_task .sam o2 (apiStore api_key s)⟩
  · intro hs hp
    rw [advanceButton_main_eq api_key now o2 s hs hp]
    exact ⟨by simp, switch_avatar_no_task .noa o2 (apiStore api_key s)⟩

/-- C9 witness: a successful start from the initial state logs the first
PreBriefing line without any speak call. -/
theorem first_line_logged_unconditionally_witness :
    (startButton "k" "t0" demoSessionOracle initialState).1.conversation_history =
      initialState.conversation_history ++
        [avatarEntry ((get_phase_scripts .pre_briefing).getD 0 default) "t0" .noa] ∧
    RemoteCall.task ∉ (startButton "k" "t0" demoSessionOracle initialState).2.calls :=
  (first_line_logged_unconditionally "k" "t0" demoSessionOracle demoStopOracle
      demoSpeakOracle initialState
      { session_id := some "sid", access_token := some "at", url := some "u",
        token := "tok" }).1
    rfl (by decide) (by decide)

/-- C10: the Reset Simulation handler resets the log, phase, started flag,
session fields, avatar and completion map but leaves a queued pending
script in place; the pending-script block deletes the queued script only
after a successful speak, which it only attempts while started. -/
theorem reset_spares_pending_script (api_key hk : String) (o : StopOracle)
    (o2 : SpeakOracle) (s : AppState) :
    (resetButton api_key o s).1.pending_script = s.pending_script ∧
    (resetButton api_key o s).1.conversation_history = [] ∧
    (resetButton api_key o s).1.simulation_phase = .pre_briefing ∧
    (resetButton api_key o s).1.simulation_started = false ∧
    (resetButton api_key o s).1.session_id = none ∧
    (resetButton api_key o s).1.session_data = none ∧
    (resetButton api_key o s).1.current_avatar = .noa ∧
    (resetButton api_key o s).1.phase_completed =
      { pre_briefing := false, main_simulation := false, debriefing := false } ∧
    ((pendingHandler hk o2 s).1.pending_script = none →
      s.pending_script = none ∨
        (s.simulation_started = true ∧
          (speak_to_avatar hk s.session_id
            ((s.pending_script.getD default).text) o2).1 = true)) := by
  rw [resetButton_eq]
  refine ⟨by simp, by simp, by simp, by simp, by simp, by simp, by simp, by simp, ?_⟩
  intro hnone
  cases hpv : s.pending_script with
  | none => exact Or.inl rfl
  | some script =>
      cases hsv : s.simulation_started with
      | false =>
          rw [pendingHandler_stuck hk o2 s (Or.inr hsv)] at hnone
          simp [hpv] at hnone
      | true =>
          rw [pendingHandler_speak hk o2 s script hpv hsv] at hnone
          cases hok : (speak_to_avatar hk s.session_id script.text o2).1 with
          | true => exact Or.inr ⟨rfl, by simp [hpv]; exact hok⟩
          | false =>
              rw [hok] at hnone
              simp [hpv] at hnone

/-- C10 witness: reset on the concrete post-start state keeps the queued
script; in that state the queued script is deleted only by a successful
speak. -/
theorem reset_spares_pending_script_witness :
    (resetButton "k" demoStopOracle startedState).1.pending_script =
      startedState.pending_script ∧
    (startedState.pending_script = none ∨
      (startedState.simulation_started = true ∧
        (speak_to_avatar "k" startedState.session_id
          ((startedState.pending_script.getD default).text) demoSpeakOracle).1 = true)) :=
  ⟨(reset_spares_pending_script "k" "k" demoStopOracle demoSpeakOracle startedState).1,
   (reset_spares_pending_script "k" "k" demoStopOracle demoSpeakOracle
      startedState).2.2.2.2.2.2.2.2 (by decide)⟩

/-- C1 counterexample: from a reachable started PreBriefing state holding a
live session, the advance transition issues no `streaming.new` call and
leaves both session fields unset afterwards — no attempt is made to create
a new session for the new character, contradicting the claim. -/
theorem advance_no_session_creation_counterexample :
    Reachable startedState ∧
    startedState.simulation_started = true ∧
    startedState.simulation_phase = SimulationPhase.pre_briefing ∧
    truthy startedState.session_id = true ∧
    RemoteCall.new_session ∉
      (advanceButton "k" "t1" demoStopOracle startedState).2.calls ∧
    (advanceButton "k" "t1" demoStopOracle startedState).1.session_id = none ∧
    (advanceButton "k" "t1" demoStopOracle startedState).1.session_data = none :=
  ⟨startedState_reachable, by decide, by decide, by decide, by decide, by decide,
   by decide⟩

/-- C1 (amended): a phase transition triggered while started marks the old
phase complete, switches the active avatar according to the new phase,
tears down the existing session best-effort (its remote effects are exactly
those of `switch_avatar`, issued only when a session id is live and an API
key is stored), clears both session fields without creating a new session,
and enqueues the new phase's first script line as pending. -/
theorem advance_transition_effects (api_key now : String) (o : StopOracle)
    (s : AppState) (hs : s.simulation_started = true) :
    (s.simulation_phase = .pre_briefing →
      (advanceButton api_key now o s).1.phase_completed.pre_briefing = true ∧
      (advanceButton api_key now o s).1.simulation_phase = .main_simulation ∧
      (advanceButton api_key now o s).1.current_avatar = .sam ∧
      (advanceButton api_key now o s).1.session_id = none ∧
      (advanceButton api_key now o s).1.session_data = none ∧
      (advanceButton api_key now o s).1.pending_script =
        some ((get_phase_scripts .main_simulation).getD 0 default) ∧
      (advanceButton api_key now o s).2 =
        (switch_avatar .sam o (apiStore api_key s)).2 ∧
      RemoteCall.new_session ∉ (advanceButton api_key now o s).2.calls) ∧
    (s.simulation_phase = .main_simulation →
      (advanceButton api_key now o s).1.phase_completed.main_simulation = true ∧
      (advanceButton api_key now o s).1.simulation_phase = .debriefing ∧
      (advanceButton api_key now o s).1.current_avatar = .noa ∧
      (advanceButton api_key now o s).1.session_id = none ∧
      (advanceButton api_key now o s).1.session_data = none ∧
      (advanceButton api_key now o s).1.pending_script =
        some ((get_phase_scripts .debriefing).getD 0 default) ∧
      (advanceButton api_key now o s).2 =
        (switch_avatar .noa o (apiStore api_key s)).2 ∧
      RemoteCall.new_session ∉ (advanceButton api_key now o s).2.calls) := by
  constructor
  · intro hp
    rw [advanceButton_pre_eq api_key now o s hs hp]
    refine ⟨rfl, rfl, rfl, rfl, rfl, by simp, rfl, ?_⟩
    exact switch_avatar_no_new_session .sam o (apiStore api_key s)
  · intro hp
    rw [advanceButton_main_eq api_key now o s hs hp]
    refine ⟨rfl, rfl, rfl, rfl, rfl, by simp, rfl, ?_⟩
    exact switch_avatar_no_new_session .noa o (apiStore api_key s)

/-- C1 witness: the PreBriefing transition on the concrete started state. -/
theorem advance_transition_effects_witness :
    (advanceButton "k" "t1" demoStopOracle startedState).1.phase_completed.pre_briefing
      = true ∧
    (advanceButton "k" "t1" demoStopOracle startedState).1.current_avatar =
      AvatarKey.sam :=
  ⟨((advance_transition_effects "k" "t1" demoStopOracle startedState (by decide)).1
      (by decide)).1,
   ((advance_transition_effects "k" "t1" demoStopOracle startedState (by decide)).1
      (by decide)).2.2.1⟩

/-- C2 counterexample: the reachable post-start state carries a queued
pending script; after reset the script is still queued (while the initial
state has none), so the post-reset state is not exactly the initial state
and a session-state component is left over. -/
theorem reset_not_initial_counterexample :
    Reachable startedState ∧
    (resetButton "k" demoStopOracle startedState).1.pending_script ≠ none ∧
    initialState.pending_script = none ∧
    (resetButton "k" demoStopOracle startedState).1 ≠ initialState :=
  ⟨startedState_reachable, by decide, rfl, by decide⟩

/-- C2 (amended): from every reachable state, reset restores the phase,
active avatar, started flag, conversation log, session fields and
completion map to their initial values, but the result is not in general
exactly the initial state: a queued pending script (and a stored API key)
survive the reset unchanged. -/
theorem reset_restores_core_state (api_key : String) (o : StopOracle)
    (s : AppState) (h : Reachable s) :
    (resetButton api_key o s).1.simulation_phase = initialState.simulation_phase ∧
    (resetButton api_key o s).1.current_avatar = initialState.current_avatar ∧
    (resetButton api_key o s).1.simulation_started = initialState.simulation_started ∧
    (resetButton api_key o s).1.conversation_history = initialState.conversation_history ∧
    (resetButton api_key o s).1.session_id = initialState.session_id ∧
    (resetButton api_key o s).1.session_data = initialState.session_data ∧
    (resetButton api_key o s).1.phase_completed = initialState.phase_completed ∧
    (resetButton api_key o s).1.pending_script = s.pending_script := by
  rw [resetButton_eq]
  refine ⟨by simp [initialState], by simp [initialState], by simp [initialState],
    by simp [initialState], by simp [initialState], by simp [initialState],
    by simp [initialState], by simp⟩

/-- C2 witness: reset applied to the reachable post-start state. -/
theorem reset_restores_core_state_witness :
    (resetButton "k" demoStopOracle startedState).1.simulation_phase =
      initialState.simulation_phase ∧
    (resetButton "k" demoStopOracle startedState).1.pending_script =
      startedState.pending_script :=
  ⟨(reset_restores_core_state "k" demoStopOracle startedState
      startedState_reachable).1,
   (reset_restores_core_state "k" demoStopOracle startedState
      startedState_reachable).2.2.2.2.2.2.2⟩

/-- C6 counterexample: with a valid token but an HTTP 500 on the speak
task, the speak call fails and the log is unchanged, yet no error is
surfaced — contradicting the claim that an error is surfaced on every
speak failure. -/
theorem script_button_silent_failure_counterexample :
    (speak_to_avatar "k" startedState.session_id
      ((get_phase_scripts startedState.simulation_phase).getD 0 default).text
      failSpeakOracle).1 = false ∧
    (scriptButton "k" "t2" 0 failSpeakOracle startedState).2.errors = [] ∧
    (scriptButton "k" "t2" 0 failSpeakOracle startedState).1.conversation_history =
      startedState.conversation_history := by
  refine ⟨by decide, by decide, by decide⟩

/-- C6 (amended): when the speak call of a script button fails, the
conversation log, phase and active avatar are unchanged, and the entry is
appended only when the speak call succeeds; however, a failure caused by a
non-2xx response to the speak task itself surfaces no error message (only
token-call failures and transport exceptions do). -/
theorem script_button_failure_no_mutation (api_key now : String) (i : Nat)
    (o : SpeakOracle) (s : AppState) :
    ((speak_to_avatar api_key s.session_id
        ((get_phase_scripts s.simulation_phase).getD i default).text o).1 = false →
      (scriptButton api_key now i o s).1.conversation_history = s.conversation_history ∧
      (scriptButton api_key now i o s).1.simulation_phase = s.simulation_phase ∧
      (scriptButton api_key now i o s).1.current_avatar = s.current_avatar) ∧
    (s.simulation_started = true → s.simulation_phase ≠ .main_simulation →
      (speak_to_avatar api_key s.session_id
        ((get_phase_scripts s.simulation_phase).getD i default).text o).1 = true →
      (scriptButton api_key now i o s).1.conversation_history =
        s.conversation_history ++
          [avatarEntry ((get_phase_scripts s.simulation_phase).getD i default) now
            s.current_avatar]) ∧
    (∀ code : Nat, o.taskResult = .status code →
      truthy (create_streaming_token api_key o.tokenResult).1 = true →
      (speak_to_avatar api_key s.session_id
        ((get_phase_scripts s.simulation_phase).getD i default).text o).2.errors = []) := by
  refine ⟨?_, ?_, ?_⟩
  · intro hfail
    cases hsv : s.simulation_started with
    | false => rw [scriptButton_not_started api_key now i o s hsv]; simp
    | true =>
        by_cases hpv : s.simulation_phase = .main_simulation
        · rw [scriptButton_main api_key now i o s hsv hpv]; simp
        · rw [scriptButton_speak_fail api_key now i o s hsv hpv hfail]; simp
  · intro hsv hpv hok
    rw [scriptButton_speak_ok api_key now i o s hsv hpv hok]
  · intro code htask htok
    unfold speak_to_avatar
    rcases o with ⟨tr, tk⟩
    simp only at htask htok
    cases tr <;> simp_all [create_streaming_token, truthy, Effects.append]

/-- C6 witness: a transition-failure instance and a success instance on the
concrete started state. -/
theorem script_button_failure_no_mutation_witness :
    (speak_to_avatar "k" startedState.session_id
      ((get_phase_scripts startedState.simulation_phase).getD 1 default).text
      failSpeakOracle).1 = false ∧
    (scriptButton "k" "t3" 1 failSpeakOracle startedState).1.conversation_history =
      startedState.conversation_history :=
  ⟨by decide,
   ((script_button_failure_no_mutation "k" "t3" 1 failSpeakOracle
      startedState).1 (by decide)).1⟩

end VaxSim
